import Mathlib

/-!
Verification development for the `schola` publication aggregation and
enrichment pipeline (`fetch_author_publications.py`, `app.py`).

The Python program is shallowly embedded: dictionaries become structures
with `Option`-valued fields (a missing key is `none`), dynamically typed
field values become the `PyVal` inductive, exceptions become `Option` /
`Except` results, and the remote services (Entrez search, Entrez efetch,
NIH iCite) become oracle functions supplied as parameters.  Machine reals
are modelled by `ℚ`; the development notes where the rational model is a
boundary (non-finite float literals such as `inf`/`nan` are outside it).
-/

/-- A dynamically typed Python value as it occurs in the publication
dictionaries: a string, an integer, a float (modelled as a rational), or
`None`. -/
inductive PyVal where
  | str (s : String)
  | int (n : ℤ)
  | float (q : ℚ)
  | noneV
deriving DecidableEq, Repr

/-- Python truthiness for the values of `PyVal`: empty string, zero and
`None` are falsy, everything else is truthy. -/
def truthy : PyVal → Bool
  | .str s => if s = "" then false else true
  | .int n => if n = 0 then false else true
  | .float q => if q = 0 then false else true
  | .noneV => false

/-- Strips leading and trailing whitespace from a character list;
models Python `str.strip()` with no argument. -/
def stripWS (cs : List Char) : List Char :=
  ((cs.dropWhile Char.isWhitespace).reverse.dropWhile Char.isWhitespace).reverse

/-- Value of a list of decimal digit characters, used by the numeric
parsers.  Returns `none` as soon as a non-digit character occurs. -/
def decDigits? (cs : List Char) : Option ℕ :=
  cs.foldl
    (fun acc c =>
      match acc with
      | none => none
      | some n => if c.isDigit then some (n * 10 + (c.toNat - 48)) else none)
    (some 0)

/-- Optionally signed run of decimal digits, required non-empty; the
shared core of Python `int()` parsing and of float exponents. -/
def signedDigits? : List Char → Option ℤ
  | [] => none
  | '-' :: rest =>
      if rest = [] then none else (decDigits? rest).map (fun n => -(n : ℤ))
  | '+' :: rest =>
      if rest = [] then none else (decDigits? rest).map (fun n => (n : ℤ))
  | cs => (decDigits? cs).map (fun n => (n : ℤ))

/-- Models Python `int(s)` on a string: surrounding whitespace is
stripped, an optional sign is accepted, and the remainder must be a
non-empty run of decimal digits.  (Digit-group underscores and non-ASCII
digits, which CPython also accepts, are outside this model; PubMed year
strings are plain ASCII digits.)  `none` models a raised `ValueError`. -/
def pyIntOfString (s : String) : Option ℤ :=
  signedDigits? (stripWS s.data)

/-- Ten to a natural power, by plain recursion so that it evaluates by
kernel reduction. -/
def pow10 : ℕ → ℕ
  | 0 => 1
  | n + 1 => 10 * pow10 n

/-- Multiplies a rational by an integer power of ten.  Written with
`Rat.divInt` (which is reducible) rather than the irreducible field
operations, so that concrete inputs evaluate. -/
def mulPow10 (q : ℚ) : ℤ → ℚ
  | Int.ofNat n => Rat.divInt (q.num * Int.ofNat (pow10 n)) (Int.ofNat q.den)
  | Int.negSucc n => Rat.divInt q.num (Int.ofNat q.den * Int.ofNat (pow10 (n + 1)))

/-- Mantissa and exponent parsing helper for `pyFloatOfString`: parses
`digits [. digits]` followed optionally by `(e|E) [sign] digits`, after
the sign has been removed.  Returns the parsed rational. -/
def pyFloatCore (cs : List Char) : Option ℚ :=
  let intPart := cs.takeWhile Char.isDigit
  let rest1 := cs.dropWhile Char.isDigit
  let fracPart := match rest1 with | '.' :: r => r.takeWhile Char.isDigit | _ => []
  let rest2 := match rest1 with | '.' :: r => r.dropWhile Char.isDigit | _ => rest1
  let hasDot := match rest1 with | '.' :: _ => true | _ => false
  if intPart = [] ∧ fracPart = [] then none
  else
    let ip := (decDigits? intPart).getD 0
    let fp := (decDigits? fracPart).getD 0
    let mant : ℚ :=
      Rat.divInt (Int.ofNat (ip * pow10 fracPart.length + fp))
        (Int.ofNat (pow10 fracPart.length))
    match rest2 with
    | [] => if hasDot ∨ rest1 = [] then some mant else none
    | 'e' :: er => (signedDigits? er).map (fun e => mulPow10 mant e)
    | 'E' :: er => (signedDigits? er).map (fun e => mulPow10 mant e)
    | _ => none

/-- Models Python `float(s)` on a string, restricted to finite decimal
literals with optional sign, fraction and exponent.  Non-finite literals
(`inf`, `nan`) are outside the rational value model and are treated as
parse failures; they do not occur in the pipeline's reachable data.
`none` models a raised `ValueError`. -/
def pyFloatOfString (s : String) : Option ℚ :=
  match stripWS s.data with
  | [] => none
  | '-' :: rest => (pyFloatCore rest).map Rat.neg
  | '+' :: rest => pyFloatCore rest
  | cs => pyFloatCore cs

/-- Models Python `float(v)` on a pipeline value: ints and floats
convert, strings are parsed, `None` raises (`none`). -/
def pyFloatVal : PyVal → Option ℚ
  | .int n => some (n : ℚ)
  | .float q => some q
  | .str s => pyFloatOfString s
  | .noneV => none

/-- Models Python `v / d` for a pipeline value `v` and an integer `d`
(true division, producing a float).  Division of a non-numeric value
raises `TypeError`, division by zero raises `ZeroDivisionError`; both
are modelled by `none`.  `Rat.divInt n d` is the rational `n / d`. -/
def pyDiv (v : PyVal) (d : ℤ) : Option PyVal :=
  match v with
  | .int n => if d = 0 then none else some (.float (Rat.divInt n d))
  | .float q => if d = 0 then none else some (.float (Rat.divInt q.num (Int.ofNat q.den * d)))
  | .str _ => none
  | .noneV => none

/-- Models Python `v + 1`: ints stay ints, floats stay floats, anything
else raises `TypeError` (modelled by `none`). -/
def pyAddOne : PyVal → Option PyVal
  | .int n => some (.int (n + 1))
  | .float q => some (.float (Rat.divInt (q.num + Int.ofNat q.den) (Int.ofNat q.den)))
  | .str _ => none
  | .noneV => none

/-- Models Python `str(v)` for the values that reach it in the enricher.
The float case renders the rational; CPython's float `repr` differs, but
iCite pmids are integers so that case is unreachable in pipeline data. -/
def pyStr : PyVal → String
  | .str s => s
  | .int n => toString n
  | .float q => toString q
  | .noneV => "None"

/-- The canonical publication dictionary built by the normalizer
(lines 142-151 of `fetch_author_publications.py`).  The citation fields
are `Option`-valued because the corresponding keys are absent until the
enricher / imputer writes them. -/
structure Pub where
  PMID : String
  Title : String
  Authors : String
  Journal : String
  Year : String
  DOI : String
  Abstract : String
  PubMed_URL : String
  Citation_Count : Option PyVal := none
  RCR : Option PyVal := none
  Field_Citation_Rate : Option PyVal := none
  RCR_imputed : Option PyVal := none
deriving DecidableEq, Repr

/-- Embedding of one loop iteration of `compute_imputed_metrics`
(lines 272-294): the branch on `not pub.get("RCR") or pub.get("RCR") == ""`,
the citation-velocity estimate guarded by `try`, and the `float`
conversion with the `1.5` fallback.  The bare `except` clauses are
modelled by the `none` cases of the partial Python operations. -/
def imputeOne (currentYear : ℤ) (p : Pub) : Pub :=
  let rcr := p.RCR.getD .noneV
  if truthy rcr = false ∨ rcr = .str "" then
    let year := p.Year
    let citations := p.Citation_Count.getD (.int 0)
    if year ≠ "" ∧ truthy citations = true then
      match pyIntOfString year with
      | none => { p with RCR_imputed := some (.int 0) }
      | some yr =>
        if currentYear - yr > 0 then
          match pyDiv citations (currentYear - yr) with
          | some v => { p with RCR_imputed := some v }
          | none => { p with RCR_imputed := some (.int 0) }
        else
          match pyAddOne citations with
          | some v => { p with RCR_imputed := some v }
          | none => { p with RCR_imputed := some (.int 0) }
    else { p with RCR_imputed := some (.int 0) }
  else
    match pyFloatVal rcr with
    | some q => { p with RCR_imputed := some (.float q) }
    | none => { p with RCR_imputed := some (.float (mkRat 3 2)) }

/-- Embedding of `compute_imputed_metrics` (lines 272-294): the in-place
loop over the list becomes a map.  `datetime.now().year` is the
`currentYear` parameter. -/
def compute_imputed_metrics (currentYear : ℤ) (pubs : List Pub) : List Pub :=
  pubs.map (imputeOne currentYear)

/-- Models Python `s.split()` with no argument: tokens are maximal runs
of non-whitespace characters; empty tokens never occur. -/
def pySplitWS (s : String) : List String :=
  ((s.data.foldr
      (fun c acc =>
        if c.isWhitespace then [] :: acc
        else
          match acc with
          | [] => [[c]]
          | t :: ts => (c :: t) :: ts)
      []).map String.mk).filter (fun t => t ≠ "")

/-- Models Python `s.upper()` (ASCII case mapping; the author names the
program compares are ASCII). -/
def upperStr (s : String) : String :=
  String.mk (s.data.map Char.toUpper)

/-- Models Python `sep.join(parts)`. -/
def joinSep (sep : String) : List String → String
  | [] => ""
  | [x] => x
  | x :: xs => x ++ sep ++ joinSep sep xs

/-- The `PubDate` dictionary of a raw Entrez record
(`article["Journal"]["JournalIssue"]["PubDate"]`). -/
structure PubDateS where
  Year : Option String := none
  MedlineDate : Option String := none
deriving DecidableEq, Repr

/-- Embedding of the year extraction at lines 77-81: the structured
`Year` key with default `""`, falling back to the first
whitespace-delimited token of `MedlineDate`.  `none` models the
`IndexError` raised by `split()[0]` on a tokenless `MedlineDate`, which
the per-record `except` turns into a dropped record. -/
def extractYear (pd : PubDateS) : Option String :=
  let year := pd.Year.getD ""
  if year = "" then
    match pd.MedlineDate with
    | some md => (pySplitWS md).head?
    | none => some ""
  else some year

/-- The `JournalIssue` dictionary of a raw record. -/
structure JournalIssueS where
  PubDate : Option PubDateS := none
deriving DecidableEq, Repr

/-- The `Journal` dictionary of a raw record. -/
structure JournalS where
  JournalIssue : Option JournalIssueS := none
  Title : Option String := none
deriving DecidableEq, Repr

/-- The `AbstractText` value of a raw record: Entrez may deliver it as a
single text block or a list of fragments. -/
inductive AbsText where
  | single (s : String)
  | multi (parts : List String)
deriving DecidableEq, Repr

/-- The `Abstract` dictionary of a raw record. -/
structure AbstractBlock where
  abstractText : Option AbsText := none
deriving DecidableEq, Repr

/-- One entry of the raw `AuthorList`: a personal author has `LastName`
and `Initials`, a group author has `CollectiveName`; any key may be
missing. -/
structure RawAuthor where
  LastName : Option String := none
  Initials : Option String := none
  CollectiveName : Option String := none
deriving DecidableEq, Repr

/-- The `Article` dictionary of a raw record. -/
structure ArticleS where
  Journal : Option JournalS := none
  ArticleTitle : Option String := none
  AuthorList : Option (List RawAuthor) := none
  Abstract : Option AbstractBlock := none
deriving DecidableEq, Repr

/-- One entry of the raw `ArticleIdList`; `IdType` is the XML attribute
and `idValue` the element text (`str(article_id)`). -/
structure ArticleIdS where
  IdType : Option String := none
  idValue : String := ""
deriving DecidableEq, Repr

/-- The `PubmedData` dictionary of a raw record. -/
structure PubmedDataS where
  ArticleIdList : Option (List ArticleIdS) := none
deriving DecidableEq, Repr

/-- The `MedlineCitation` dictionary of a raw record. -/
structure MedlineCitationS where
  PMID : Option String := none
  Article : Option ArticleS := none
deriving DecidableEq, Repr

/-- A raw record from `records["PubmedArticle"]`. -/
structure RawRecord where
  MedlineCitation : Option MedlineCitationS := none
  PubmedData : Option PubmedDataS := none
deriving DecidableEq, Repr

/-- Embedding of the author display list built at lines 98-106: entries
with both `LastName` and `Initials` render as `"Last Initials"`, entries
with a `CollectiveName` render verbatim, all other entries are skipped. -/
def authorsDisplay (al : List RawAuthor) : List String :=
  al.filterMap (fun a =>
    match a.LastName, a.Initials with
    | some l, some ini => some (l ++ " " ++ ini)
    | _, _ => a.CollectiveName)

/-- Embedding of the position scan at lines 109-115: the first index in
the raw `AuthorList` whose `LastName`, uppercased, equals the searched
last name (itself uppercased once at line 33). -/
def authorPosition (searched : String) (al : List RawAuthor) : Option ℕ :=
  al.findIdx? (fun a =>
    match a.LastName with
    | some l => upperStr l == searched
    | none => false)

/-- Embedding of the author-position filter at lines 117-128: reject
when the scan found no position; otherwise accept iff the raw-list
index is `< 2` or `≥ len(authors) - 2`, where `authors` is the display
list (source line 120 uses `len(authors)`, not `len(author_list)`).
The comparison is over `ℤ` as in Python. -/
def positionFilterAccepts (searched : String) (al : List RawAuthor) : Bool :=
  match authorPosition searched al with
  | some pos =>
      decide (pos < 2) || decide (((authorsDisplay al).length : ℤ) - 2 ≤ (pos : ℤ))
  | none => false

/-- Embedding of the DOI extraction at lines 84-89: first `ArticleIdList`
entry whose `IdType` attribute is `"doi"`, else the empty string. -/
def extractDoi (r : RawRecord) : String :=
  let ids :=
    match r.PubmedData with
    | none => []
    | some pdta => pdta.ArticleIdList.getD []
  match ids.find? (fun aid => aid.IdType == some "doi") with
  | some aid => aid.idValue
  | none => ""

/-- Embedding of the abstract extraction at lines 131-137: a list of
fragments is joined with single spaces, a single block is used as is,
a missing key yields the empty string. -/
def extractAbstract (article : ArticleS) : String :=
  match article.Abstract with
  | some ab =>
      match ab.abstractText with
      | some (.multi parts) => joinSep " " parts
      | some (.single s) => s
      | none => ""
  | none => ""

/-- Result of processing one raw record inside the batch loop: a
normalized publication, a record dropped by the per-record `except`
(lines 155-157), or a record rejected by the author-position filter. -/
inductive RecResult where
  | ok (p : Pub)
  | errorSkip
  | filteredOut
deriving DecidableEq, Repr

/-- Embedding of the per-record normalization at lines 71-157, in source
execution order: each dictionary access that can raise `KeyError` (and
the `split()[0]` that can raise `IndexError`) short-circuits to
`errorSkip`, the author-position filter short-circuits to
`filteredOut`. -/
def processRecord (searched : String) (filterPos : Bool) (r : RawRecord) : RecResult :=
  match r.MedlineCitation with
  | none => .errorSkip
  | some mc =>
    match mc.Article with
    | none => .errorSkip
    | some article =>
      match article.Journal with
      | none => .errorSkip
      | some journal =>
        match journal.JournalIssue with
        | none => .errorSkip
        | some ji =>
          match ji.PubDate with
          | none => .errorSkip
          | some pd =>
            match extractYear pd with
            | none => .errorSkip
            | some year =>
              let doi := extractDoi r
              match mc.PMID with
              | none => .errorSkip
              | some pmid =>
                let title := article.ArticleTitle.getD ""
                let al := article.AuthorList.getD []
                let authorsStr := joinSep ", " (authorsDisplay al)
                if filterPos ∧ positionFilterAccepts searched al = false then
                  .filteredOut
                else
                  let abstract := extractAbstract article
                  match journal.Title with
                  | none => .errorSkip
                  | some journalTitle =>
                    .ok
                      { PMID := pmid, Title := title, Authors := authorsStr,
                        Journal := journalTitle, Year := year, DOI := doi,
                        Abstract := abstract,
                        PubMed_URL := "https://pubmed.ncbi.nlm.nih.gov/" ++ pmid ++ "/" }

/-- Number of batches the loop `for i in range(0, len, size)` executes:
zero for an empty list, else the ceiling of `len / size`. -/
def numBatches (len size : ℕ) : ℕ :=
  (len + size - 1) / size

/-- Outcome of one batch detail-fetch (`Entrez.efetch` + `Entrez.read`,
lines 63-69): the `PubmedArticle` list on success, or `none` when the
call raised and the `except` skipped the batch. -/
def FetchOracle : Type := ℕ → Option (List RawRecord)

/-- Embedding of the batched fetch-and-normalize loop, lines 59-157:
batches of 100 identifiers; a failed batch contributes nothing
(`continue`), a successful batch contributes its normalized,
filter-surviving records in order. -/
def fetchNormalize (searched : String) (filterPos : Bool)
    (ids : List String) (fo : FetchOracle) : List Pub :=
  (List.range (numBatches ids.length 100)).foldl
    (fun acc b =>
      match fo b with
      | none => acc
      | some recs =>
          acc ++ recs.filterMap (fun r =>
            match processRecord searched filterPos r with
            | .ok p => some p
            | .errorSkip => none
            | .filteredOut => none))
    []

/-- The descending-year ordering used by the sort at lines 159-160:
`a` precedes `b` when `b`'s year string is lexically at most `a`'s. -/
def yearGe (a b : Pub) : Prop := b.Year ≤ a.Year

instance : DecidableRel yearGe := fun a b =>
  inferInstanceAs (Decidable (b.Year ≤ a.Year))

instance : IsTotal Pub yearGe := ⟨fun a b => le_total b.Year a.Year⟩

instance : IsTrans Pub yearGe := ⟨fun _ _ _ hab hbc => le_trans hbc hab⟩

/-- Embedding of `publications.sort(key=lambda x: x.get("Year", ""),
reverse=True)` (lines 159-160): Python `list.sort` is a stable sort, and
insertion sort over the total relation `yearGe` is the stable descending
sort by the year string. -/
def sortPubs (pubs : List Pub) : List Pub :=
  List.insertionSort yearGe pubs

/-- One entry of the iCite JSON `data` array; each field is `none` when
the key is absent from the response object. -/
structure CiteItem where
  pmid : Option PyVal := none
  citation_count : Option PyVal := none
  rcr : Option PyVal := none
  fcr : Option PyVal := none
deriving DecidableEq, Repr

/-- The citation values stored per pmid in `citation_map`
(lines 196-200), with the `get` defaults of the source applied. -/
structure CiteVals where
  cc : PyVal
  rcrv : PyVal
  fcrv : PyVal
deriving DecidableEq, Repr

/-- Outcome of one iCite batch request (lines 185-233): a parsed JSON
`data` list on HTTP 200, a non-200 status, or a raised transport/parse
exception. -/
inductive BatchOutcome where
  | success (items : List CiteItem)
  | httpError (code : ℕ)
  | exn
deriving DecidableEq, Repr

/-- Provides the `BatchOutcome` of each iCite batch, by batch index. -/
def CiteOracle : Type := ℕ → BatchOutcome

/-- Builds `citation_map` from the response items (lines 194-200):
`str(item.get("pmid", ""))` keys the values taken with their source
defaults. -/
def buildCitationMap (items : List CiteItem) : List (String × CiteVals) :=
  items.map (fun it =>
    (pyStr (it.pmid.getD (.str "")),
     ⟨it.citation_count.getD (.int 0), it.rcr.getD (.str ""), it.fcr.getD (.str "")⟩))

/-- Python dict lookup where later writes win: the last entry with the
given key, if any. -/
def lookupLast (m : List (String × CiteVals)) (k : String) : Option CiteVals :=
  (m.reverse.find? (fun e => e.1 == k)).map (fun e => e.2)

/-- Writes the three citation fields of a publication. -/
def setTrio (p : Pub) (cc rcrv fcrv : PyVal) : Pub :=
  { p with Citation_Count := some cc, RCR := some rcrv, Field_Citation_Rate := some fcrv }

/-- Embedding of the body of one iteration of the iCite batch loop
(lines 185-233).  On success the update loop at lines 203-212 runs over
the WHOLE `publications` list: a publication whose pmid is in the
response map gets its values, every other publication gets explicit
empty strings.  On a non-200 status or an exception, only publications
still missing `Citation_Count` get explicit empty fields. -/
def processBatch (pubs : List Pub) (out : BatchOutcome) : List Pub :=
  match out with
  | .success items =>
      let cmap := buildCitationMap items
      pubs.map (fun p =>
        match lookupLast cmap p.PMID with
        | some cv => setTrio p cv.cc cv.rcrv cv.fcrv
        | none => setTrio p (.str "") (.str "") (.str ""))
  | .httpError _ =>
      pubs.map (fun p =>
        if p.Citation_Count.isSome then p else setTrio p (.str "") (.str "") (.str ""))
  | .exn =>
      pubs.map (fun p =>
        if p.Citation_Count.isSome then p else setTrio p (.str "") (.str "") (.str ""))

/-- Embedding of `fetch_citation_counts` (lines 169-235): batches of up
to 1000 pmids, each processed by `processBatch` with the oracle's
outcome; `time.sleep` is a pure no-op in the model. -/
def fetch_citation_counts (co : CiteOracle) (pubs : List Pub) : List Pub :=
  (List.range (numBatches (pubs.map (fun p => p.PMID)).length 1000)).foldl
    (fun ps b => processBatch ps (co b))
    pubs

/-- Embedding of `fetch_author_publications` (lines 15-166).  The three
remote interactions are oracles: `searchResult` is the outcome of the
`Entrez.esearch` call (an exception there propagates, line 45 is outside
any `try`), `fo` the per-batch detail fetch, `co` the per-batch iCite
lookup.  `searched` is `search_last_name` computed at line 33. -/
def fetch_author_publications (searched : String) (filterPos : Bool)
    (searchResult : Except String (List String))
    (fo : FetchOracle) (co : CiteOracle) : Except String (List Pub) :=
  match searchResult with
  | .error e => .error e
  | .ok ids =>
      if ids.isEmpty then .ok []
      else
        let pubs := fetchNormalize searched filterPos ids fo
        let sorted := sortPubs pubs
        .ok (fetch_citation_counts co sorted)

/-- What the `/results` route of `app.py` renders: a redirect to the
home page, the `base.html` error content, or the `results.html`
publication list. -/
inductive PageResult where
  | redirectHome
  | errorPage (content : String)
  | resultsPage (pubs : List Pub) (author : String)
deriving DecidableEq, Repr

/-- Embedding of the `results` view of `app.py` (lines 56-79): an empty
(stripped) author redirects home; a raised pipeline error is caught and
rendered as the plain error paragraph; otherwise the fetched list is
imputed and rendered.  The pipeline call is abstracted by its
`Except` result. -/
def resultsView (author : String) (pipelineResult : Except String (List Pub))
    (currentYear : ℤ) : PageResult :=
  if String.mk (stripWS author.data) = "" then .redirectHome
  else
    match pipelineResult with
    | .error e => .errorPage ("<p>Error fetching publications: " ++ e ++ "</p>")
    | .ok pubs => .resultsPage (compute_imputed_metrics currentYear pubs) author

/-- Claim C1's reading of "the impact-ratio field (RCR) is present and
non-empty": the key is present and its value is neither the empty string
nor `None`.  (A numeric zero counts as present and non-empty under this
reading.) -/
def rcrPresentNonEmpty (p : Pub) : Bool :=
  match p.RCR with
  | none => false
  | some (.str s) => if s = "" then false else true
  | some .noneV => false
  | some (.int _) => true
  | some (.float _) => true

/-- The truthiness condition the source actually branches on:
`pub.get("RCR")` is truthy (so a numeric zero, the empty string and
`None` all fall through to the velocity estimate). -/
def rcrTruthy (p : Pub) : Bool :=
  truthy (p.RCR.getD .noneV)

/-- Spec-side citation-velocity estimate, written from the claim's words:
with `years_since = current_year - year`, the imputed impact is
`citation_count / years_since` when the difference is positive,
`citation_count + 1` when it is zero or negative, and `0` on any parse
error (unparsable year, or non-numeric citation count). -/
def claimVelocity (y : ℤ) (p : Pub) : PyVal :=
  match pyIntOfString p.Year with
  | none => .int 0
  | some yr =>
      let yearsSince := y - yr
      if 0 < yearsSince then (pyDiv (p.Citation_Count.getD (.int 0)) yearsSince).getD (.int 0)
      else (pyAddOne (p.Citation_Count.getD (.int 0))).getD (.int 0)

/-- Claim C1 exactly as stated: the float branch is taken whenever RCR
is present and non-empty, the velocity branch when RCR is absent/empty
and year and citation count are truthy, else zero. -/
def specImputeClaimC1 (y : ℤ) (p : Pub) : PyVal :=
  if rcrPresentNonEmpty p then
    match pyFloatVal (p.RCR.getD .noneV) with
    | some q => .float q
    | none => .float (mkRat 3 2)
  else if p.Year ≠ "" ∧ truthy (p.Citation_Count.getD (.int 0)) = true then
    claimVelocity y p
  else .int 0

/-- Claim C1 as amended: identical to `specImputeClaimC1` except that
the float branch is keyed on Python truthiness of the RCR value, which
is what line 275 (`if not pub.get("RCR") or pub.get("RCR") == ""`)
actually tests. -/
def specImputeAmendedC1 (y : ℤ) (p : Pub) : PyVal :=
  if rcrTruthy p then
    match pyFloatVal (p.RCR.getD .noneV) with
    | some q => .float q
    | none => .float (mkRat 3 2)
  else if p.Year ≠ "" ∧ truthy (p.Citation_Count.getD (.int 0)) = true then
    claimVelocity y p
  else .int 0

/-- The concrete record refuting claim C1 as stated: the metrics service
reported a numeric relative citation ratio of `0.0`, which is present and
non-empty but falsy in Python. -/
def pubC1cex : Pub :=
  { PMID := "1", Title := "", Authors := "", Journal := "", Year := "2020",
    DOI := "", Abstract := "", PubMed_URL := "",
    Citation_Count := some (.int 10), RCR := some (.float (mkRat 0 1)),
    Field_Citation_Rate := some (.float (mkRat 1 1)) }

/-- An author-list entry that contributes a display name: a personal
author with both last name and initials, or a collective name. -/
def displayable (a : RawAuthor) : Bool :=
  (a.LastName.isSome && a.Initials.isSome) || a.CollectiveName.isSome

/-- Claim C2 exactly as stated: with the first matching index `i` in the
author list and `n` the length of that same list, accept iff `i < 2` or
`i ≥ n - 2` (integer comparison); reject when there is no match. -/
def specAcceptsClaimC2 (searched : String) (al : List RawAuthor) : Bool :=
  match authorPosition searched al with
  | none => false
  | some i => decide (i < 2) || decide ((al.length : ℤ) - 2 ≤ (i : ℤ))

/-- Claim C2 as amended: `i` is still the first matching index in the
raw author list, but `n` is the number of entries that contribute a
display name (personal authors with initials, or collective names),
because line 120 measures `len(authors)`, the display list. -/
def specAcceptsAmendedC2 (searched : String) (al : List RawAuthor) : Bool :=
  match authorPosition searched al with
  | none => false
  | some i => decide (i < 2) || decide ((al.countP displayable : ℤ) - 2 ≤ (i : ℤ))

/-- The concrete author list refuting claim C2 as stated: five raw
entries, searched author at raw index 2, but the last two entries have
no initials and no collective name, so the display list has length 3. -/
def authorsC2cex : List RawAuthor :=
  [{ LastName := some "Aa", Initials := some "A" },
   { LastName := some "Bb", Initials := some "B" },
   { LastName := some "Smith", Initials := some "J" },
   { LastName := some "Cc" },
   { LastName := some "Dd" }]

/-- A list of five personal authors (all with initials) with the
searched author `"Smith J"` placed at the given index. -/
def fiveWithSmithAt (k : ℕ) : List RawAuthor :=
  (List.range 5).map (fun i =>
    if i = k then { LastName := some "Smith", Initials := some "J" }
    else { LastName := some ("Zz" ++ toString i), Initials := some "X" })

/-- Claim C9 as amended, written from its words: a non-empty structured
`Year` is used; otherwise, if `MedlineDate` is present, the year is its
first whitespace-delimited token — which fails (record dropped) when
`MedlineDate` has no tokens; when both fields are absent (or `Year` is
empty and `MedlineDate` absent) the year is the empty string. -/
def specExtractYearAmended (pd : PubDateS) : Option String :=
  if pd.Year.getD "" ≠ "" then some (pd.Year.getD "")
  else if pd.MedlineDate.isSome then (pySplitWS (pd.MedlineDate.getD "")).head?
  else some ""

/-- A full raw record that is normalizable in every respect except that
its `PubDate` has no `Year` and an empty `MedlineDate`. -/
def rawC9cex : RawRecord :=
  { MedlineCitation := some
      { PMID := some "42",
        Article := some
          { Journal := some
              { JournalIssue := some
                  { PubDate := some { Year := none, MedlineDate := some "" } },
                Title := some "Cell" },
            ArticleTitle := some "A title",
            AuthorList := some [{ LastName := some "Smith", Initials := some "J" }],
            Abstract := some { abstractText := some (.single "abs") } } },
    PubmedData := some { ArticleIdList := some [] } }

/-- The same record with a tokenful `MedlineDate`, which normalizes
fine; included to show the drop in `C9_counterexample` is caused by the
date field alone. -/
def rawC9ok : RawRecord :=
  { MedlineCitation := some
      { PMID := some "42",
        Article := some
          { Journal := some
              { JournalIssue := some
                  { PubDate := some { Year := none, MedlineDate := some "2020 Jan-Feb" } },
                Title := some "Cell" },
            ArticleTitle := some "A title",
            AuthorList := some [{ LastName := some "Smith", Initials := some "J" }],
            Abstract := some { abstractText := some (.single "abs") } } },
    PubmedData := some { ArticleIdList := some [] } }

/-- All three citation fields of a publication are set (to real or
explicit-empty values). -/
def trioSet (p : Pub) : Prop :=
  p.Citation_Count.isSome = true ∧ p.RCR.isSome = true ∧ p.Field_Citation_Rate.isSome = true

instance (p : Pub) : Decidable (trioSet p) := by
  unfold trioSet; infer_instance

/-- A fresh normalizer-style publication used to witness C3. -/
def pubC3 : Pub :=
  { PMID := "9", Title := "", Authors := "", Journal := "", Year := "",
    DOI := "", Abstract := "", PubMed_URL := "" }

/-- 1001 fresh publications with pmids `"0"` … `"1000"`, so the iCite
loop runs two batches (1000 + 1). -/
def pubsC4 : List Pub :=
  (List.range 1001).map (fun k =>
    { PMID := toString k, Title := "", Authors := "", Journal := "", Year := "",
      DOI := "", Abstract := "", PubMed_URL := "" })

/-- An iCite oracle where both batches succeed: batch 0 returns data for
pmid `"0"` only, batch 1 returns data for pmid `"1000"` only. -/
def citeOracleC4 : CiteOracle := fun b =>
  if b = 0 then
    .success [{ pmid := some (.str "0"), citation_count := some (.int 5),
                rcr := some (.float (mkRat 1 1)), fcr := some (.float (mkRat 2 1)) }]
  else
    .success [{ pmid := some (.str "1000"), citation_count := some (.int 7),
                rcr := some (.float (mkRat 3 1)), fcr := some (.float (mkRat 4 1)) }]

/-- The eight normalizer-produced fields of a publication. -/
def coreFields (p : Pub) :
    String × String × String × String × String × String × String × String :=
  (p.PMID, p.Title, p.Authors, p.Journal, p.Year, p.DOI, p.Abstract, p.PubMed_URL)

/-- The three fields written by the Citation Enricher. -/
def citeFields (p : Pub) : Option PyVal × Option PyVal × Option PyVal :=
  (p.Citation_Count, p.RCR, p.Field_Citation_Rate)

/-- Minimal normalizable raw record used in the C7 witness. -/
def rawC7 : RawRecord :=
  { MedlineCitation := some
      { PMID := some "7",
        Article := some
          { Journal := some
              { JournalIssue := some { PubDate := some { Year := some "2019" } },
                Title := some "PLoS" },
            ArticleTitle := some "W",
            AuthorList := some [{ LastName := some "Smith", Initials := some "J" }] } },
    PubmedData := some { ArticleIdList := some [] } }

/-- 101 identifiers, so the record fetch runs two batches of 100. -/
def idsC7 : List String := (List.range 101).map toString

/-- Fetch oracle for the C7 witness: batch 0 succeeds with one record,
batch 1 raises. -/
def foC7 : FetchOracle := fun b => if b = 1 then none else some [rawC7]

theorem imputeOne_set (y : ℤ) (p : Pub) :
    imputeOne y p = { p with RCR_imputed := some (specImputeAmendedC1 y p) } := by
  unfold imputeOne specImputeAmendedC1 rcrTruthy claimVelocity
  by_cases h : truthy (p.RCR.getD .noneV) = true
  · have h2 : ¬(truthy (p.RCR.getD .noneV) = false ∨ p.RCR.getD .noneV = .str "") := by
      rintro (hf | he)
      · rw [h] at hf; exact Bool.noConfusion hf
      · rw [he] at h; exact Bool.noConfusion ((by decide : truthy (.str "") = false) ▸ h)
    rw [if_neg h2, if_pos h]
    cases hq : pyFloatVal (p.RCR.getD .noneV) <;> simp
  · have hb : truthy (p.RCR.getD .noneV) = false := by
      cases hh : truthy (p.RCR.getD .noneV)
      · rfl
      · exact absurd hh h
    rw [if_pos (Or.inl hb), if_neg h]
    by_cases hyc : p.Year ≠ "" ∧ truthy (p.Citation_Count.getD (.int 0)) = true
    · rw [if_pos hyc, if_pos hyc]
      cases hint : pyIntOfString p.Year with
      | none => simp
      | some yr =>
          simp only
          by_cases hpos : 0 < y - yr
          · rw [if_pos hpos, if_pos hpos]
            cases hd : pyDiv (p.Citation_Count.getD (.int 0)) (y - yr) <;> simp [hd]
          · rw [if_neg hpos, if_neg hpos]
            cases ha : pyAddOne (p.Citation_Count.getD (.int 0)) <;> simp [ha]
    · rw [if_neg hyc, if_neg hyc]

/-- C1 counterexample: for a record with `RCR = 0.0` (present and
non-empty), `Year = "2020"`, `Citation_Count = 10` and current year
2025, the code computes the velocity estimate `10 / 5 = 2.0`, not
`float(RCR) = 0.0` as the claim requires, so the claim as stated fails
at this input. -/
theorem C1_counterexample :
    rcrPresentNonEmpty pubC1cex = true ∧
    (imputeOne 2025 pubC1cex).RCR_imputed = some (.float (mkRat 2 1)) ∧
    specImputeClaimC1 2025 pubC1cex = .float (mkRat 0 1) ∧
    (imputeOne 2025 pubC1cex).RCR_imputed ≠ some (specImputeClaimC1 2025 pubC1cex) := by
  decide

/-- C1 (amended): `compute_imputed_metrics` rewrites exactly the
`RCR_imputed` field of every record, to `float(RCR)` when the RCR value
is truthy and parses (`1.5` when truthy and unparsable), to the
citation-velocity estimate (quotient for a positive year difference,
`citation_count + 1` otherwise, `0` on parse errors) when RCR is falsy
and year and citation count are truthy, and to `0` otherwise. -/
theorem C1_metric_imputer (y : ℤ) (pubs : List Pub) :
    compute_imputed_metrics y pubs
      = pubs.map (fun p => { p with RCR_imputed := some (specImputeAmendedC1 y p) }) := by
  unfold compute_imputed_metrics
  exact List.map_congr_left (fun p _ => imputeOne_set y p)

/-- C6: the Metric Imputer is idempotent — a second pass with the same
current year re-derives the same `RCR_imputed` from the unchanged
citation fields. -/
theorem C6_imputer_idempotent (y : ℤ) (pubs : List Pub) :
    compute_imputed_metrics y (compute_imputed_metrics y pubs)
      = compute_imputed_metrics y pubs := by
  unfold compute_imputed_metrics
  rw [List.map_map]
  refine List.map_congr_left (fun p _ => ?_)
  show imputeOne y (imputeOne y p) = imputeOne y p
  rw [imputeOne_set y p, imputeOne_set y]
  rfl

theorem authorsDisplay_length (al : List RawAuthor) :
    (authorsDisplay al).length = al.countP displayable := by
  induction al with
  | nil => rfl
  | cons a t ih =>
      unfold authorsDisplay at ih ⊢
      rw [List.filterMap_cons, List.countP_cons]
      cases hL : a.LastName <;> cases hI : a.Initials <;> cases hC : a.CollectiveName <;>
        simp [displayable, hL, hI, hC, ih]

/-- C2 counterexample: the searched author is at raw index 2 of 5
entries, so the claim (with `n = 5`) demands rejection, but the code
compares against `len(authors) = 3` display names and accepts
(`2 ≥ 3 - 2`). -/
theorem C2_counterexample :
    authorPosition "SMITH" authorsC2cex = some 2 ∧
    authorsC2cex.length = 5 ∧
    (authorsDisplay authorsC2cex).length = 3 ∧
    positionFilterAccepts "SMITH" authorsC2cex = true ∧
    specAcceptsClaimC2 "SMITH" authorsC2cex = false := by
  decide

/-- C2 (amended): the position filter rejects when no entry's last name
matches case-insensitively; otherwise with the first match at raw index
`i` it accepts iff `i < 2` or `i ≥ m - 2` where `m` counts the entries
contributing display names.  For five ordinary authors the claim's
boundary cases hold: match at index 2 is rejected, at index 1 or 3
accepted. -/
theorem C2_position_filter :
    (∀ searched al, positionFilterAccepts searched al = specAcceptsAmendedC2 searched al)
    ∧ positionFilterAccepts "SMITH" (fiveWithSmithAt 2) = false
    ∧ positionFilterAccepts "SMITH" (fiveWithSmithAt 1) = true
    ∧ positionFilterAccepts "SMITH" (fiveWithSmithAt 3) = true := by
  refine ⟨fun searched al => ?_, by decide, by decide, by decide⟩
  unfold positionFilterAccepts specAcceptsAmendedC2
  cases h : authorPosition searched al <;> simp [h, authorsDisplay_length]

/-- C9 counterexample: with the structured `Year` absent and
`MedlineDate` present but empty, `MedlineDate.split()[0]` raises
`IndexError` and the per-record handler drops the record — it does not
proceed with an empty-string year as the claim states.  The otherwise
identical record with `MedlineDate = "2020 Jan-Feb"` is normalized with
year `"2020"`, so the drop is due to the date field. -/
theorem C9_counterexample :
    extractYear { Year := none, MedlineDate := some "" } = none ∧
    processRecord "SMITH" false rawC9cex = .errorSkip ∧
    (processRecord "SMITH" false rawC9ok matches .ok _) := by
  refine ⟨by decide, by decide, ?_⟩
  decide

/-- C9 (amended): year extraction uses a non-empty structured `Year`
when available, else the first whitespace token of a present
`MedlineDate` (failing, and dropping the record, when `MedlineDate` has
no tokens), else the empty string. -/
theorem C9_year_extraction (pd : PubDateS) :
    extractYear pd = specExtractYearAmended pd := by
  unfold extractYear specExtractYearAmended
  by_cases h : pd.Year.getD "" = ""
  · cases hm : pd.MedlineDate <;> simp [h, hm]
  · simp [h]

theorem trio_processBatch_of_coherent (out : BatchOutcome) (ps : List Pub)
    (h : ∀ p ∈ ps, p.Citation_Count.isSome = true →
      (p.RCR.isSome = true ∧ p.Field_Citation_Rate.isSome = true)) :
    ∀ q ∈ processBatch ps out, trioSet q := by
  intro q hq
  cases out with
  | success items =>
      unfold processBatch at hq
      obtain ⟨p, hp, rfl⟩ := List.mem_map.mp hq
      cases hl : lookupLast (buildCitationMap items) p.PMID <;> simp [hl, setTrio, trioSet]
  | httpError c =>
      unfold processBatch at hq
      obtain ⟨p, hp, rfl⟩ := List.mem_map.mp hq
      by_cases hcc : p.Citation_Count.isSome = true
      · have := h p hp hcc
        simp [hcc, trioSet, this.1, this.2]
      · have hcc' : p.Citation_Count.isSome = false := by
          cases hb : p.Citation_Count.isSome
          · rfl
          · exact absurd hb hcc
        simp [hcc', setTrio, trioSet]
  | exn =>
      unfold processBatch at hq
      obtain ⟨p, hp, rfl⟩ := List.mem_map.mp hq
      by_cases hcc : p.Citation_Count.isSome = true
      · have := h p hp hcc
        simp [hcc, trioSet, this.1, this.2]
      · have hcc' : p.Citation_Count.isSome = false := by
          cases hb : p.Citation_Count.isSome
          · rfl
          · exact absurd hb hcc
        simp [hcc', setTrio, trioSet]

theorem trio_processBatch_pres (out : BatchOutcome) (ps : List Pub)
    (h : ∀ p ∈ ps, trioSet p) : ∀ q ∈ processBatch ps out, trioSet q :=
  trio_processBatch_of_coherent out ps (fun p hp _ => ⟨(h p hp).2.1, (h p hp).2.2⟩)

theorem trio_foldl (co : CiteOracle) (bs : List ℕ) (ps : List Pub)
    (h : ∀ p ∈ ps, trioSet p) :
    ∀ q ∈ bs.foldl (fun x b => processBatch x (co b)) ps, trioSet q := by
  induction bs generalizing ps with
  | nil => simpa using h
  | cons b rest ih =>
      rw [List.foldl_cons]
      exact ih _ (trio_processBatch_pres (co b) ps h)

/-- C3: after `fetch_citation_counts` returns on a non-empty publication
list whose records are coherent (a set `Citation_Count` implies the other
two citation fields are set — in particular fresh normalizer output,
where none are set), every publication has `Citation_Count`, `RCR` and
`Field_Citation_Rate` set, to service values or explicit empties. -/
theorem C3_enricher_total (co : CiteOracle) (pubs : List Pub)
    (hne : pubs ≠ [])
    (hcoh : ∀ p ∈ pubs, p.Citation_Count.isSome = true →
      (p.RCR.isSome = true ∧ p.Field_Citation_Rate.isSome = true)) :
    ∀ q ∈ fetch_citation_counts co pubs, trioSet q := by
  unfold fetch_citation_counts
  have hlen : (pubs.map (fun p => p.PMID)).length = pubs.length := List.length_map _ _
  have hpos : 1 ≤ numBatches pubs.length 1000 := by
    unfold numBatches
    have h1 : 1 ≤ pubs.length := List.length_pos.mpr hne
    omega
  obtain ⟨m, hm⟩ : ∃ m, numBatches pubs.length 1000 = m + 1 :=
    ⟨numBatches pubs.length 1000 - 1, (Nat.succ_pred_eq_of_pos hpos).symm⟩
  rw [hlen, hm, List.range_succ_eq_map, List.foldl_cons]
  exact trio_foldl co _ _ (trio_processBatch_of_coherent (co 0) pubs hcoh)

/-- Witness for C3 at a concrete input: one fresh publication and an
iCite oracle whose only batch raises. -/
theorem C3_witness :
    ([pubC3] ≠ [] ∧
      ∀ p ∈ [pubC3], p.Citation_Count.isSome = true →
        (p.RCR.isSome = true ∧ p.Field_Citation_Rate.isSome = true)) ∧
    ∀ q ∈ fetch_citation_counts (fun _ => .exn) [pubC3], trioSet q :=
  ⟨⟨by decide, by decide⟩,
    C3_enricher_total (fun _ => .exn) [pubC3] (by decide) (by decide)⟩

set_option maxRecDepth 8000 in
/-- C4 failing input, evaluated on the code: with 1001 publications the
enricher runs two batches.  After the successful batch 0 the first
publication (pmid `"0"`) carries the real value `RCR = 1.0`; after the
also-successful batch 1 — whose update loop at lines 203-212 iterates
over ALL publications, not only the batch — the same publication has
been reset to the explicit-empty `RCR = ""`, contradicting the claimed
batch-scoped retention. -/
theorem C4_code_divergence :
    numBatches (pubsC4.map (fun p => p.PMID)).length 1000 = 2 ∧
    ((processBatch pubsC4 (citeOracleC4 0)).head?.map (fun p => p.RCR))
      = some (some (.float (mkRat 1 1))) ∧
    ((fetch_citation_counts citeOracleC4 pubsC4).head?.map (fun p => p.RCR))
      = some (some (.str "")) := by
  refine ⟨rfl, rfl, rfl⟩

theorem processBatch_map_proj {β : Type} (f : Pub → β)
    (hf : ∀ p cc r fc, f (setTrio p cc r fc) = f p)
    (ps : List Pub) (out : BatchOutcome) :
    (processBatch ps out).map f = ps.map f := by
  cases out with
  | success items =>
      unfold processBatch
      rw [List.map_map]
      refine List.map_congr_left (fun p _ => ?_)
      cases hl : lookupLast (buildCitationMap items) p.PMID <;> simp [hl, hf]
  | httpError c =>
      unfold processBatch
      rw [List.map_map]
      refine List.map_congr_left (fun p _ => ?_)
      by_cases hcc : p.Citation_Count.isSome <;> simp [hcc, hf]
  | exn =>
      unfold processBatch
      rw [List.map_map]
      refine List.map_congr_left (fun p _ => ?_)
      by_cases hcc : p.Citation_Count.isSome <;> simp [hcc, hf]

theorem foldl_batches_map_proj {β : Type} (f : Pub → β)
    (hf : ∀ p cc r fc, f (setTrio p cc r fc) = f p)
    (co : CiteOracle) (bs : List ℕ) (ps : List Pub) :
    ((bs.foldl (fun x b => processBatch x (co b)) ps).map f) = ps.map f := by
  induction bs generalizing ps with
  | nil => rfl
  | cons b rest ih => rw [List.foldl_cons, ih, processBatch_map_proj f hf]

theorem fetch_cc_map_proj {β : Type} (f : Pub → β)
    (hf : ∀ p cc r fc, f (setTrio p cc r fc) = f p)
    (co : CiteOracle) (pubs : List Pub) :
    (fetch_citation_counts co pubs).map f = pubs.map f := by
  unfold fetch_citation_counts
  exact foldl_batches_map_proj f hf co _ pubs

theorem imputeOne_map_proj {β : Type} (f : Pub → β)
    (hf : ∀ p v, f { p with RCR_imputed := v } = f p)
    (y : ℤ) (pubs : List Pub) :
    (compute_imputed_metrics y pubs).map f = pubs.map f := by
  unfold compute_imputed_metrics
  rw [List.map_map]
  refine List.map_congr_left (fun p _ => ?_)
  show f (imputeOne y p) = f p
  rw [imputeOne_set]
  exact hf p _

/-- C10: the Citation Enricher and the Metric Imputer preserve list
length, element order and all normalizer-produced fields; the enricher
does not touch `RCR_imputed`, and the imputer does not touch the three
citation fields. -/
theorem C10_frame_effects (co : CiteOracle) (y : ℤ) (pubs : List Pub) :
    (fetch_citation_counts co pubs).length = pubs.length
    ∧ (fetch_citation_counts co pubs).map coreFields = pubs.map coreFields
    ∧ (fetch_citation_counts co pubs).map (fun p => p.RCR_imputed)
        = pubs.map (fun p => p.RCR_imputed)
    ∧ (compute_imputed_metrics y pubs).length = pubs.length
    ∧ (compute_imputed_metrics y pubs).map coreFields = pubs.map coreFields
    ∧ (compute_imputed_metrics y pubs).map citeFields = pubs.map citeFields := by
  have h1 := fetch_cc_map_proj coreFields (fun _ _ _ _ => rfl) co pubs
  have h4 := imputeOne_map_proj coreFields (fun _ _ => rfl) y pubs
  refine ⟨?_, h1, fetch_cc_map_proj (fun p => p.RCR_imputed) (fun _ _ _ _ => rfl) co pubs,
    ?_, h4, imputeOne_map_proj citeFields (fun _ _ => rfl) y pubs⟩
  · have := congrArg List.length h1
    simpa using this
  · have := congrArg List.length h4
    simpa using this

theorem filter_orderedInsert_eqYear (yv : String) (a : Pub) (l : List Pub)
    (h : a.Year = yv) :
    (List.orderedInsert yearGe a l).filter (fun p => p.Year == yv)
      = a :: l.filter (fun p => p.Year == yv) := by
  induction l with
  | nil => simp [List.orderedInsert, h]
  | cons b t ih =>
      by_cases hr : yearGe a b
      · rw [List.orderedInsert, if_pos hr]
        simp [List.filter_cons, h]
      · rw [List.orderedInsert, if_neg hr]
        have hb : (b.Year == yv) = false := by
          refine beq_eq_false_iff_ne.mpr (fun hby => hr ?_)
          show b.Year ≤ a.Year
          rw [hby, h]
        simp [List.filter_cons, hb, ih]

theorem filter_orderedInsert_neYear (yv : String) (a : Pub) (l : List Pub)
    (h : a.Year ≠ yv) :
    (List.orderedInsert yearGe a l).filter (fun p => p.Year == yv)
      = l.filter (fun p => p.Year == yv) := by
  have ha : (a.Year == yv) = false := beq_eq_false_iff_ne.mpr h
  induction l with
  | nil => simp [List.orderedInsert, ha]
  | cons b t ih =>
      by_cases hr : yearGe a b
      · rw [List.orderedInsert, if_pos hr]
        simp [List.filter_cons, ha]
      · rw [List.orderedInsert, if_neg hr]
        simp [List.filter_cons, ih]

theorem sortPubs_stable (yv : String) (l : List Pub) :
    (sortPubs l).filter (fun p => p.Year == yv) = l.filter (fun p => p.Year == yv) := by
  unfold sortPubs
  induction l with
  | nil => rfl
  | cons x t ih =>
      show (List.orderedInsert yearGe x (List.insertionSort yearGe t)).filter
          (fun p => p.Year == yv) = (x :: t).filter (fun p => p.Year == yv)
      by_cases hx : x.Year = yv
      · rw [filter_orderedInsert_eqYear yv x _ hx, ih]
        simp [List.filter_cons, hx]
      · rw [filter_orderedInsert_neYear yv x _ hx, ih]
        simp [List.filter_cons, hx]

/-- C5: the sort at lines 159-160 yields a sequence ordered by the year
string descending (lexical string comparison), records with equal year
strings keep their original relative order (stability, expressed by
filter invariance for every year value), and the subsequent citation
enrichment leaves the year sequence — hence the ordering — unchanged, so
the pipeline's returned sequence is sorted the same way. -/
theorem C5_sort_descending_stable (l : List Pub) (co : CiteOracle) :
    List.Sorted yearGe (sortPubs l)
    ∧ (∀ yv, (sortPubs l).filter (fun p => p.Year == yv)
        = l.filter (fun p => p.Year == yv))
    ∧ (fetch_citation_counts co (sortPubs l)).map (fun p => p.Year)
        = (sortPubs l).map (fun p => p.Year) :=
  ⟨List.sorted_insertionSort yearGe l,
   fun yv => sortPubs_stable yv l,
   fetch_cc_map_proj (fun p => p.Year) (fun _ _ _ _ => rfl) co _⟩

theorem foldl_congr_mem {α β : Type} (l : List α) (f g : β → α → β) (a : β)
    (h : ∀ acc b, b ∈ l → f acc b = g acc b) : l.foldl f a = l.foldl g a := by
  induction l generalizing a with
  | nil => rfl
  | cons x t ih =>
      rw [List.foldl_cons, List.foldl_cons, h a x (List.mem_cons_self x t)]
      exact ih _ (fun acc b hb => h acc b (List.mem_cons_of_mem x hb))

/-- C7: when the detail fetch of batch `j` raises, the run is identical
to one where batch `j` simply contributes no records — every other
batch's normalized records are still produced — and the pipeline still
returns an `ok` result (no exception reaches the caller). -/
theorem C7_batch_failure_skipped (searched : String) (fp : Bool) (ids : List String)
    (fo : FetchOracle) (co : CiteOracle) (j : ℕ) (hj : fo j = none) :
    fetchNormalize searched fp ids fo
      = fetchNormalize searched fp ids (fun b => if b = j then some [] else fo b)
    ∧ ∃ l, fetch_author_publications searched fp (.ok ids) fo co = .ok l := by
  constructor
  · unfold fetchNormalize
    refine foldl_congr_mem _ _ _ _ (fun acc b _ => ?_)
    by_cases hb : b = j
    · subst hb
      rw [hj]
      simp
    · simp [hb]
  · by_cases he : ids.isEmpty = true
    · exact ⟨[], by simp [fetch_author_publications, he]⟩
    · exact ⟨fetch_citation_counts co (sortPubs (fetchNormalize searched fp ids fo)),
        by simp [fetch_author_publications, he]⟩

/-- Witness for C7 at a concrete input: two batches, the second fails. -/
theorem C7_witness :
    foC7 1 = none ∧
    (fetchNormalize "SMITH" false idsC7 foC7
        = fetchNormalize "SMITH" false idsC7 (fun b => if b = 1 then some [] else foC7 b)
      ∧ ∃ l, fetch_author_publications "SMITH" false (.ok idsC7) foC7
          (fun _ => .exn) = .ok l) :=
  ⟨rfl, C7_batch_failure_skipped "SMITH" false idsC7 foC7 (fun _ => .exn) 1 rfl⟩

/-- C8: a failure of the search call itself (line 45, outside any `try`)
propagates out of `fetch_author_publications` with no partial list, and
the `/results` view catches it and renders the plain error paragraph
instead of a publication list. -/
theorem C8_search_failure_propagates (searched : String) (fp : Bool)
    (author e : String) (fo : FetchOracle) (co : CiteOracle) (y : ℤ)
    (ha : String.mk (stripWS author.data) ≠ "") :
    fetch_author_publications searched fp (.error e) fo co = .error e
    ∧ resultsView author (fetch_author_publications searched fp (.error e) fo co) y
        = .errorPage ("<p>Error fetching publications: " ++ e ++ "</p>") := by
  refine ⟨rfl, ?_⟩
  unfold resultsView
  rw [if_neg ha]
  rfl

/-- Witness for C8 at a concrete input. -/
theorem C8_witness :
    String.mk (stripWS "Knowles DA".data) ≠ "" ∧
    (fetch_author_publications "KNOWLES" true (.error "HTTP 500")
        (fun _ => none) (fun _ => .exn) = .error "HTTP 500"
      ∧ resultsView "Knowles DA"
          (fetch_author_publications "KNOWLES" true (.error "HTTP 500")
            (fun _ => none) (fun _ => .exn)) 2025
          = .errorPage ("<p>Error fetching publications: " ++ "HTTP 500" ++ "</p>")) :=
  ⟨by decide,
    C8_search_failure_propagates "KNOWLES" true "Knowles DA" "HTTP 500"
      (fun _ => none) (fun _ => .exn) 2025 (by decide)⟩

example : pyIntOfString "2020" = some 2020 := by decide
example : pyIntOfString " -13 " = some (-13) := by decide
example : pyIntOfString "20.5" = none := by decide
example : pyIntOfString "" = none := by decide
example : pyFloatOfString "0.87" = some (mkRat 87 100) := by decide
example : pyFloatOfString "abc" = none := by decide
example : pyFloatOfString "1." = some (mkRat 1 1) := by decide
example : pyFloatOfString ".5" = some (mkRat 1 2) := by decide
example : pyFloatOfString "-2e1" = some (mkRat (-20) 1) := by decide
example : pyFloatOfString "3" = some (mkRat 3 1) := by decide
example : pyFloatOfString "1e-2" = some (mkRat 1 100) := by decide
example : pyDiv (.int 10) 5 = some (.float (mkRat 2 1)) := by decide
